import Mathlib

/-! Verification development for the roc-toolkit receiver/sender pipeline core.

Shallow embeddings of:
- `roc_audio/watchdog.cpp` (`Watchdog::update`, `Watchdog::read`,
  `Watchdog::detect_jump_`);
- the depacketizer started-state machine (spec section 4.6; the
  implementation file `depacketizer.cpp` is not among the sampled sources,
  only `depacketizer.h`);
- `roc_pipeline/sender_session.cpp` (`SenderSession::create_transport_pipeline`,
  `SenderSession::on_get_num_sources`, `SenderSession::on_get_sending_source`);
- `roc_audio/resampler_map.cpp` (`ResamplerMap::new_resampler`);
- `roc_sndio/pump.cpp` (`Pump::Pump`, `Pump::valid`);
- `roc_core/heap_allocator.cpp` (`HeapAllocator::allocate`,
  `HeapAllocator::deallocate`, `HeapAllocator::num_allocations`).

C++ machine integers are modelled as `Nat`/`Int` with explicit reduction
modulo two-power constants where the source relies on wraparound.
`roc_panic` paths are modelled as a distinguished result (`none` or a
dedicated constructor), since a panic aborts the process. -/

/-- An RTP packet as seen by the watchdog: a 16-bit sequence number and a
32-bit stream timestamp, both stored as `Nat` reduced modulo their width. -/
structure Packet where
  seqnum : Nat
  timestamp : Nat
deriving DecidableEq, Repr

/-- ROC_SUBTRACT over `packet::signed_seqnum_t` (`int16_t`): wraparound-safe
signed subtraction of two 16-bit sequence numbers, i.e. the value of the C
cast `(int16_t)(a - b)`. -/
def seq_sub (a b : Nat) : Int :=
  if (a % 65536 + (65536 - b % 65536)) % 65536 < 32768
  then ((a % 65536 + (65536 - b % 65536)) % 65536 : Int)
  else ((a % 65536 + (65536 - b % 65536)) % 65536 : Int) - 65536

/-- ROC_SUBTRACT over `packet::signed_timestamp_t` (`int32_t`): wraparound-safe
signed subtraction of two 32-bit timestamps, i.e. `(int32_t)(a - b)`. -/
def ts_sub (a b : Nat) : Int :=
  if (a % 4294967296 + (4294967296 - b % 4294967296)) % 4294967296 < 2147483648
  then ((a % 4294967296 + (4294967296 - b % 4294967296)) % 4294967296 : Int)
  else ((a % 4294967296 + (4294967296 - b % 4294967296)) % 4294967296 : Int) - 4294967296

/-- ROC_IS_BEFORE over `packet::signed_seqnum_t`: `a` is before `b` iff the
signed 16-bit distance `(int16_t)(a - b)` is negative. -/
def seq_is_before (a b : Nat) : Bool :=
  decide (seq_sub a b < 0)

/-- State of `roc::audio::Watchdog`. The constructor sets
`countdown_ = timeout_`, `has_packets_ = false`, `alive_ = true`, `prev_`
unset. `ROC_CONFIG_MAX_SN_JUMP` / `ROC_CONFIG_MAX_TS_JUMP` are configuration
macros whose definition file is not among the sampled sources; they are
carried as the fields `max_sn_jump` / `max_ts_jump`. -/
structure Watchdog where
  timeout : Nat
  max_sn_jump : Nat
  max_ts_jump : Nat
  countdown : Nat
  has_packets : Bool
  alive : Bool
  prev : Option Packet
deriving DecidableEq, Repr

/-- `Watchdog::Watchdog(reader, timeout)`. -/
def Watchdog.init (timeout max_sn_jump max_ts_jump : Nat) : Watchdog :=
  { timeout := timeout
    max_sn_jump := max_sn_jump
    max_ts_jump := max_ts_jump
    countdown := timeout
    has_packets := false
    alive := true
    prev := none }

/-- `Watchdog::detect_jump_(next)`: returns whether a seqnum/timestamp jump
was detected together with the new value of `prev_` (the source updates
`prev_` in place; on a detected jump it returns before the update). -/
def detect_jump (w : Watchdog) (next : Packet) : Bool × Option Packet :=
  match w.prev with
  | some pr =>
    if (seq_sub pr.seqnum next.seqnum).natAbs > w.max_sn_jump then (true, some pr)
    else if (ts_sub pr.timestamp next.timestamp).natAbs > w.max_ts_jump then (true, some pr)
    else if seq_is_before pr.seqnum next.seqnum then (false, some next)
    else (false, some pr)
  | none => (false, some next)

/-- Whether a packet offered to the watchdog triggers jump detection
(the boolean component of `detect_jump_` in isolation). -/
def triggersJump (w : Watchdog) (next : Packet) : Bool :=
  match w.prev with
  | some pr =>
    if (seq_sub pr.seqnum next.seqnum).natAbs > w.max_sn_jump then true
    else if (ts_sub pr.timestamp next.timestamp).natAbs > w.max_ts_jump then true
    else false
  | none => false

/-- `Watchdog::update()`: returns the boolean result and the new state. -/
def Watchdog.update (w : Watchdog) : Bool × Watchdog :=
  if w.alive = false then (false, w)
  else if w.has_packets then
    (true, { w with countdown := w.timeout, has_packets := false })
  else
    let cd := if w.countdown > 0 then w.countdown - 1 else w.countdown
    if cd = 0 then (false, { w with countdown := cd, alive := false })
    else (true, { w with countdown := cd, has_packets := false })

/-- `Watchdog::read()`. The underlying `IPacketReader` is modelled as a FIFO
list of packets; `reader_.read()` pops its head (or yields `none` when the
list is empty). Returns the packet returned to the caller, the new watchdog
state and the remaining reader queue. When the watchdog is dead the reader
is not consulted. -/
def Watchdog.read (w : Watchdog) (q : List Packet) :
    Option Packet × Watchdog × List Packet :=
  if w.alive = false then (none, w, q)
  else
    match q with
    | [] => (none, w, q)
    | p :: rest =>
      match detect_jump w p with
      | (true, _) => (none, { w with alive := false }, rest)
      | (false, prev') => (some p, { w with prev := prev', has_packets := true }, rest)

/-- Iterated `update()` calls (with no intervening reads). -/
def updatesN : Nat → Watchdog → Watchdog
  | 0, w => w
  | n + 1, w => ((updatesN n w).update).2

/-- One caller-visible operation on the watchdog. -/
inductive WOp where
  | update
  | read
deriving DecidableEq, Repr

/-- Run a sequence of `update()` / `read()` calls against the watchdog and
its reader queue. -/
def runOps : Watchdog → List Packet → List WOp → Watchdog × List Packet
  | w, q, [] => (w, q)
  | w, q, WOp.update :: rest => runOps (w.update).2 q rest
  | w, q, WOp.read :: rest =>
    let r := w.read q
    runOps r.2.1 r.2.2 rest

/-- Modelled from the spec: a packet as consumed by the depacketizer, a
stream timestamp (of its first sample) plus its decoded PCM samples. The
depacketizer implementation file (`depacketizer.cpp`) is not among the
sampled sources; only `depacketizer.h` is, so the model follows the words of
spec section 4.6. Samples are PCM values, modelled as `Int` (0 = silence). -/
structure DPacket where
  ts : Nat
  samples : List Int
deriving DecidableEq, Repr

/-- Modelled from the spec: the depacketizer state relevant to the claim.
`started` is the flag reported by `Depacketizer::started()` (the header's
`first_packet_` field holds its negation); `cursor` is the next-timestamp
cursor reported by `Depacketizer::timestamp()`, meaningful only once
`started` is true. -/
structure DepackState where
  started : Bool
  cursor : Nat
deriving DecidableEq, Repr

/-- Modelled from the spec: the state of a freshly constructed depacketizer,
which has not yet decoded any sample. -/
def depackInit : DepackState :=
  { started := false, cursor := 0 }

/-- `Depacketizer::timestamp()`: the next timestamp to be rendered. The
header documents the precondition that `started()` returns true, carried
here as a proof argument. -/
def DepackState.timestamp (st : DepackState) (_h : st.started = true) : Nat :=
  st.cursor

/-- Modelled from the spec: produce one output sample (spec section 4.6).
The packet queue models the packet reader; a partially consumed packet is
represented by advancing its `ts` and dropping its consumed samples, so the
current packet is the queue head. Returns the emitted sample, whether it was
decoded from a packet (as opposed to silence), the new state and the new
queue. Stale packets (timestamp before the cursor) are discarded; a gap
(packet timestamp ahead of the cursor) yields silence; before the first
decoded sample the cursor is undefined and is seeded from the first
packet. -/
def getSample (st : DepackState) : List DPacket → Int × Bool × DepackState × List DPacket
  | [] =>
    (0, false, ⟨st.started, if st.started then st.cursor + 1 else st.cursor⟩, [])
  | p :: q =>
    match p.samples with
    | [] => getSample st q
    | s :: rest =>
      if st.started = false then
        (s, true, ⟨true, p.ts + 1⟩, ⟨p.ts + 1, rest⟩ :: q)
      else if p.ts = st.cursor then
        (s, true, ⟨true, st.cursor + 1⟩, ⟨p.ts + 1, rest⟩ :: q)
      else if st.cursor < p.ts then
        (0, false, ⟨st.started, st.cursor + 1⟩, p :: q)
      else
        getSample st q

/-- Modelled from the spec: `Depacketizer::read` filling a frame of `n`
samples by repeated `getSample` steps. -/
def readFrame : Nat → DepackState → List DPacket → List Int × DepackState × List DPacket
  | 0, st, q => ([], st, q)
  | n + 1, st, q =>
    ((getSample st q).1
        :: (readFrame n ((getSample st q).2.2.1) ((getSample st q).2.2.2)).1,
     (readFrame n ((getSample st q).2.2.1) ((getSample st q).2.2.2)).2)

/-- State of `roc::pipeline::SenderSession` relevant to the claims: the
`num_sources_` counter and whether `audio_writer_` has been set by a
previous successful `create_transport_pipeline` call. -/
structure SenderSession where
  num_sources : Nat
  audio_writer : Bool
deriving DecidableEq, Repr

/-- Outcomes of the fallible construction steps inside
`SenderSession::create_transport_pipeline`: format lookup, allocations and
`valid()` checks of the successive pipeline elements, plus the
configuration bits that decide which optional elements are built. -/
structure TransportEnv where
  formatOk : Bool
  routerOk : Bool
  sourceRouteOk : Bool
  repairRouteOk : Bool
  interleavingEnabled : Bool
  interleaverOk : Bool
  fecEncoderOk : Bool
  fecWriterOk : Bool
  payloadEncoderOk : Bool
  packetizerOk : Bool
  channelMasksDiffer : Bool
  channelMapperOk : Bool
  resamplingNeeded : Bool
  poisoningEnabled : Bool
  poisonerOk : Bool
  resamplerOk : Bool
  resamplerWriterOk : Bool
deriving DecidableEq, Repr

/-- Result of `create_transport_pipeline`: either a `roc_panic` (the two
`roc_panic_if` guards at the top) or a boolean return value together with
the session state after the call. -/
inductive CtpResult where
  | panic
  | ret (ok : Bool) (s : SenderSession)
deriving DecidableEq, Repr

/-- The two `num_sources_++` increments performed at the top of
`SenderSession::create_transport_pipeline`, before any validation step: one
for a non-null source endpoint, one more for a non-null repair endpoint. -/
def bumpSources (s : SenderSession) (hasSource hasRepair : Bool) : SenderSession :=
  let s1 := if hasSource then { s with num_sources := s.num_sources + 1 } else s
  if hasRepair then { s1 with num_sources := s1.num_sources + 1 } else s1

/-- `SenderSession::create_transport_pipeline(source_endpoint,
repair_endpoint)`. `hasSource` / `hasRepair` model the nullness of the two
endpoint pointers; the fallible construction steps are mirrored in source
order as early `false` returns. -/
def create_transport_pipeline (s : SenderSession) (hasSource hasRepair : Bool)
    (env : TransportEnv) : CtpResult :=
  if s.audio_writer then CtpResult.panic
  else if hasSource = false then CtpResult.panic
  else if env.formatOk = false then CtpResult.ret false (bumpSources s hasSource hasRepair)
  else if env.routerOk = false then CtpResult.ret false (bumpSources s hasSource hasRepair)
  else if env.sourceRouteOk = false then
    CtpResult.ret false (bumpSources s hasSource hasRepair)
  else if hasRepair && !env.repairRouteOk then
    CtpResult.ret false (bumpSources s hasSource hasRepair)
  else if hasRepair && env.interleavingEnabled && !env.interleaverOk then
    CtpResult.ret false (bumpSources s hasSource hasRepair)
  else if hasRepair && !env.fecEncoderOk then
    CtpResult.ret false (bumpSources s hasSource hasRepair)
  else if hasRepair && !env.fecWriterOk then
    CtpResult.ret false (bumpSources s hasSource hasRepair)
  else if env.payloadEncoderOk = false then
    CtpResult.ret false (bumpSources s hasSource hasRepair)
  else if env.packetizerOk = false then
    CtpResult.ret false (bumpSources s hasSource hasRepair)
  else if env.channelMasksDiffer && !env.channelMapperOk then
    CtpResult.ret false (bumpSources s hasSource hasRepair)
  else if env.resamplingNeeded && env.poisoningEnabled && !env.poisonerOk then
    CtpResult.ret false (bumpSources s hasSource hasRepair)
  else if env.resamplingNeeded && !env.resamplerOk then
    CtpResult.ret false (bumpSources s hasSource hasRepair)
  else if env.resamplingNeeded && !env.resamplerWriterOk then
    CtpResult.ret false (bumpSources s hasSource hasRepair)
  else CtpResult.ret true { bumpSources s hasSource hasRepair with audio_writer := true }

/-- `SenderSession::on_get_num_sources()`. -/
def on_get_num_sources (s : SenderSession) : Nat :=
  s.num_sources

/-- `SenderSession::on_get_sending_source(source_index)`: the placeholder
switch over the source index; the fall-through is a `roc_panic`, modelled as
`none`. -/
def on_get_sending_source (source_index : Nat) : Option Nat :=
  match source_index with
  | 0 => some 123
  | 1 => some 456
  | _ => none

/-- The resampler backend selector. The enum header is not among the
sampled sources; `ResamplerMap::new_resampler` only distinguishes the
builtin backend from every other value, carried here as `other` with an
opaque discriminant. -/
inductive ResamplerBackend where
  | builtin
  | other (id : Nat)
deriving DecidableEq, Repr

/-- Result of `ResamplerMap::new_resampler`: `roc_panic`, a NULL pointer, or
a valid resampler. -/
inductive ResamplerResult where
  | panic
  | null
  | valid
deriving DecidableEq, Repr

/-- `ResamplerMap::new_resampler(resampler_backend, ...)`. `allocOk` models
whether `new (allocator) BuiltinResampler(...)` succeeds (placement new on
the allocator yields NULL on exhaustion); `resamplerValid` models the
constructed resampler's `valid()` report. -/
def new_resampler (backend : ResamplerBackend) (allocOk resamplerValid : Bool) :
    ResamplerResult :=
  match backend with
  | ResamplerBackend.other _ => ResamplerResult.panic
  | ResamplerBackend.builtin =>
    if allocOk = false then ResamplerResult.null
    else if resamplerValid = false then ResamplerResult.null
    else ResamplerResult.valid

/-- State of `roc::sndio::Pump` relevant to `valid()`: the frame buffer
handle, `none` when never allocated (any early return in the constructor)
and `some frameSize` after allocation and reslicing. -/
structure Pump where
  frame_buffer : Option Nat
deriving DecidableEq, Repr

/-- `Pump::Pump(...)`. `frameSize` is the value of
`sample_spec_.ns_2_samples_overall(frame_length)`, `bufferSize` the buffer
factory's `buffer_size()`, and `allocOk` whether `new_buffer()` succeeds.
Every failure path returns normally, leaving the frame buffer unset. -/
def Pump.construct (frameSize bufferSize : Nat) (allocOk : Bool) : Pump :=
  if frameSize = 0 then { frame_buffer := none }
  else if bufferSize < frameSize then { frame_buffer := none }
  else if allocOk = false then { frame_buffer := none }
  else { frame_buffer := some frameSize }

/-- `Pump::valid()`: the boolean conversion of `frame_buffer_`. -/
def Pump.valid (p : Pump) : Bool :=
  p.frame_buffer.isSome

/-- State of `roc::core::HeapAllocator`: the `num_allocations_` counter
(a signed C++ `int`). -/
structure HeapAllocator where
  num_allocations : Int
deriving DecidableEq, Repr

/-- `HeapAllocator::allocate(size)`: increments the counter. -/
def HeapAllocator.allocate (h : HeapAllocator) : HeapAllocator :=
  { num_allocations := h.num_allocations + 1 }

/-- `HeapAllocator::deallocate(ptr)`: panics (modelled as `none`) when the
counter is not positive, otherwise decrements it. -/
def HeapAllocator.deallocate (h : HeapAllocator) : Option HeapAllocator :=
  if h.num_allocations ≤ 0 then none
  else some { num_allocations := h.num_allocations - 1 }

/-- One call against the heap allocator. -/
inductive AllocOp where
  | alloc
  | dealloc
deriving DecidableEq, Repr

/-- Run a sequence of allocate/deallocate calls; `none` when some
deallocate panicked. -/
def runAllocOps : HeapAllocator → List AllocOp → Option HeapAllocator
  | h, [] => some h
  | h, AllocOp.alloc :: rest => runAllocOps h.allocate rest
  | h, AllocOp.dealloc :: rest =>
    match h.deallocate with
    | none => none
    | some h' => runAllocOps h' rest

/-- Number of `allocate()` calls in a call sequence. -/
def countAllocs : List AllocOp → Nat
  | [] => 0
  | AllocOp.alloc :: rest => countAllocs rest + 1
  | AllocOp.dealloc :: rest => countAllocs rest

/-- Number of `deallocate()` calls in a call sequence. -/
def countDeallocs : List AllocOp → Nat
  | [] => 0
  | AllocOp.alloc :: rest => countDeallocs rest
  | AllocOp.dealloc :: rest => countDeallocs rest + 1

theorem read_of_dead (w : Watchdog) (q : List Packet) (h : w.alive = false) :
    w.read q = (none, w, q) := by
  unfold Watchdog.read
  simp [h]

theorem update_of_dead (w : Watchdog) (h : w.alive = false) :
    w.update = (false, w) := by
  unfold Watchdog.update
  simp [h]

theorem read_step (w : Watchdog) (p : Packet) (rest : List Packet)
    (halive : w.alive = true) :
    w.read (p :: rest) =
      match detect_jump w p with
      | (true, _) => (none, { w with alive := false }, rest)
      | (false, prev') =>
        (some p, { w with prev := prev', has_packets := true }, rest) := by
  unfold Watchdog.read
  simp [halive]

theorem detect_jump_of_prev (w : Watchdog) (pr p : Packet) (hprev : w.prev = some pr) :
    detect_jump w p =
      (if (seq_sub pr.seqnum p.seqnum).natAbs > w.max_sn_jump then (true, some pr)
       else if (ts_sub pr.timestamp p.timestamp).natAbs > w.max_ts_jump then (true, some pr)
       else if seq_is_before pr.seqnum p.seqnum then (false, some p)
       else (false, some pr)) := by
  unfold detect_jump
  rw [hprev]

theorem detect_jump_fst (w : Watchdog) (p : Packet) :
    (detect_jump w p).1 = triggersJump w p := by
  unfold detect_jump triggersJump
  cases hp : w.prev with
  | none => rfl
  | some pr =>
    by_cases h1 : (seq_sub pr.seqnum p.seqnum).natAbs > w.max_sn_jump
    · simp [h1]
    · by_cases h2 : (ts_sub pr.timestamp p.timestamp).natAbs > w.max_ts_jump
      · simp [h1, h2]
      · by_cases h3 : seq_is_before pr.seqnum p.seqnum
        · simp [h1, h2, h3]
        · simp [h1, h2, h3]

theorem update_survives (w : Watchdog) (halive : w.alive = true)
    (hhp : w.has_packets = false) (hcd : 2 ≤ w.countdown) :
    (w.update).1 = true ∧ ((w.update).2).alive = true ∧
    ((w.update).2).has_packets = false ∧
    ((w.update).2).countdown = w.countdown - 1 := by
  have h0 : (if w.countdown > 0 then w.countdown - 1 else w.countdown)
      = w.countdown - 1 := if_pos (by omega)
  have hz : ¬ (w.countdown - 1 = 0) := by omega
  simp [Watchdog.update, halive, hhp, h0, hz]

theorem update_dies (w : Watchdog) (halive : w.alive = true)
    (hhp : w.has_packets = false) (hcd : w.countdown = 1) :
    w.update = (false, { w with countdown := 0, alive := false }) := by
  simp [Watchdog.update, halive, hhp, hcd]

theorem updatesN_invariant (w : Watchdog) (halive : w.alive = true)
    (hhp : w.has_packets = false) :
    ∀ k, k < w.countdown →
      (updatesN k w).alive = true ∧ (updatesN k w).has_packets = false ∧
      (updatesN k w).countdown = w.countdown - k := by
  intro k
  induction k with
  | zero =>
    intro _
    exact ⟨halive, hhp, by simp [updatesN]⟩
  | succ n ih =>
    intro hk
    have hn : n < w.countdown := Nat.lt_of_succ_lt hk
    obtain ⟨ha, hh, hc⟩ := ih hn
    have hcd : 2 ≤ (updatesN n w).countdown := by omega
    obtain ⟨_, ha', hh', hc'⟩ := update_survives (updatesN n w) ha hh hcd
    refine ⟨?_, ?_, ?_⟩
    · rw [updatesN]; exact ha'
    · rw [updatesN]; exact hh'
    · rw [updatesN, hc', hc]; omega

theorem runOps_dead (ops : List WOp) :
    ∀ (w : Watchdog) (q : List Packet), w.alive = false →
      ((runOps w q ops).1).alive = false := by
  induction ops with
  | nil =>
    intro w q h
    simpa [runOps] using h
  | cons op rest ih =>
    intro w q h
    cases op with
    | update =>
      rw [runOps, update_of_dead w h]
      exact ih w q h
    | read =>
      rw [runOps]
      simp only [read_of_dead w q h]
      exact ih w q h

/-- C2: once the watchdog has marked the session dead, the dead state is
sticky: every subsequent `read()` returns empty and leaves the state and
the reader untouched, every subsequent `update()` returns `false`, and no
sequence of `read()`/`update()` calls ever brings the watchdog back to the
alive state. -/
theorem watchdog_dead_sticky (w : Watchdog) (q : List Packet) (ops : List WOp)
    (hdead : w.alive = false) :
    w.read q = (none, w, q) ∧ w.update = (false, w) ∧
      ((runOps w q ops).1).alive = false :=
  ⟨read_of_dead w q hdead, update_of_dead w hdead, runOps_dead ops w q hdead⟩

/-- Witness for C2 at a concrete dead watchdog and call sequence. -/
theorem watchdog_dead_sticky_witness :
    (Watchdog.mk 2 500 500 2 false false none).read [Packet.mk 1 1] =
      (none, Watchdog.mk 2 500 500 2 false false none, [Packet.mk 1 1]) ∧
    (Watchdog.mk 2 500 500 2 false false none).update =
      (false, Watchdog.mk 2 500 500 2 false false none) ∧
    ((runOps (Watchdog.mk 2 500 500 2 false false none) [Packet.mk 1 1]
        [WOp.update, WOp.read, WOp.update]).1).alive = false :=
  watchdog_dead_sticky (Watchdog.mk 2 500 500 2 false false none) [Packet.mk 1 1]
    [WOp.update, WOp.read, WOp.update] rfl

/-- C3: a `read()` that obtains a packet while the watchdog is alive, with
a previously recorded non-rejected packet, kills the watchdog and returns
empty when the wraparound-safe seqnum distance to the recorded packet
exceeds `max_sn_jump` in absolute value or the timestamp distance exceeds
`max_ts_jump`; otherwise the packet is returned. -/
theorem watchdog_jump_detection (w : Watchdog) (p pr : Packet) (rest : List Packet)
    (halive : w.alive = true) (hprev : w.prev = some pr) :
    (((seq_sub pr.seqnum p.seqnum).natAbs > w.max_sn_jump ∨
      (ts_sub pr.timestamp p.timestamp).natAbs > w.max_ts_jump) →
        (w.read (p :: rest)).1 = none ∧ ((w.read (p :: rest)).2.1).alive = false) ∧
    ((seq_sub pr.seqnum p.seqnum).natAbs ≤ w.max_sn_jump ∧
      (ts_sub pr.timestamp p.timestamp).natAbs ≤ w.max_ts_jump →
        (w.read (p :: rest)).1 = some p) := by
  have hr := read_step w p rest halive
  have hd := detect_jump_of_prev w pr p hprev
  constructor
  · intro hjump
    have hdj : detect_jump w p = (true, some pr) := by
      rw [hd]
      rcases hjump with h | h
      · rw [if_pos h]
      · by_cases hsn : (seq_sub pr.seqnum p.seqnum).natAbs > w.max_sn_jump
        · rw [if_pos hsn]
        · rw [if_neg hsn, if_pos h]
    rw [hr, hdj]
    exact ⟨rfl, rfl⟩
  · intro hsmall
    have hsn : ¬ ((seq_sub pr.seqnum p.seqnum).natAbs > w.max_sn_jump) :=
      not_lt.mpr hsmall.1
    have hts : ¬ ((ts_sub pr.timestamp p.timestamp).natAbs > w.max_ts_jump) :=
      not_lt.mpr hsmall.2
    have hdj : detect_jump w p =
        (if seq_is_before pr.seqnum p.seqnum then (false, some p)
         else (false, some pr)) := by
      rw [hd, if_neg hsn, if_neg hts]
    rw [hr, hdj]
    by_cases hb : seq_is_before pr.seqnum p.seqnum
    · rw [if_pos hb]
    · rw [if_neg hb]

/-- Witness for C3 at concrete inputs: a seqnum jump of 1000 against
`max_sn_jump = 500` kills the watchdog, and a nearby packet passes. -/
theorem watchdog_jump_detection_witness :
    (((Watchdog.mk 2 500 500 2 false true (some (Packet.mk 0 0))).read
        [Packet.mk 1000 0]).1 = none ∧
      ((((Watchdog.mk 2 500 500 2 false true (some (Packet.mk 0 0))).read
        [Packet.mk 1000 0]).2.1)).alive = false) ∧
    ((Watchdog.mk 2 500 500 2 false true (some (Packet.mk 0 0))).read
        [Packet.mk 3 0]).1 = some (Packet.mk 3 0) :=
  ⟨(watchdog_jump_detection (Watchdog.mk 2 500 500 2 false true (some (Packet.mk 0 0)))
      (Packet.mk 1000 0) (Packet.mk 0 0) [] rfl rfl).1 (Or.inl (by decide)),
   (watchdog_jump_detection (Watchdog.mk 2 500 500 2 false true (some (Packet.mk 0 0)))
      (Packet.mk 3 0) (Packet.mk 0 0) [] rfl rfl).2 (by decide)⟩

/-- C1 (counterexample): the claim that before the timeout fires a `read()`
returns a packet if and only if the underlying reader has one is false:
with `max_sn_jump = 5`, after reading packet seq 0 the watchdog is alive
and its countdown untouched, the reader still holds a packet (seq 1000),
yet the next `read()` returns empty because the packet triggers jump
detection. -/
theorem watchdog_read_iff_counterexample :
    ((Watchdog.mk 2 5 5 2 false true none).read
        [Packet.mk 0 0, Packet.mk 1000 0]).1 = some (Packet.mk 0 0) ∧
    (((Watchdog.mk 2 5 5 2 false true none).read
        [Packet.mk 0 0, Packet.mk 1000 0]).2.1).alive = true ∧
    1 ≤ (((Watchdog.mk 2 5 5 2 false true none).read
        [Packet.mk 0 0, Packet.mk 1000 0]).2.1).countdown ∧
    ((Watchdog.mk 2 5 5 2 false true none).read
        [Packet.mk 0 0, Packet.mk 1000 0]).2.2 = [Packet.mk 1000 0] ∧
    ((((Watchdog.mk 2 5 5 2 false true none).read
          [Packet.mk 0 0, Packet.mk 1000 0]).2.1).read
        (((Watchdog.mk 2 5 5 2 false true none).read
          [Packet.mk 0 0, Packet.mk 1000 0]).2.2)).1 = none := by
  decide

/-- C1 (amended): for an alive watchdog with timeout `T` at least 1: an
`update()` after a packet was observed resets the countdown to `T`; an
`update()` with no packet observed decrements the countdown; after exactly
`T` consecutive packet-less `update()` calls the watchdog marks itself dead
and the next `read()` returns empty; and while alive, `read()` returns the
reader's next packet if and only if the reader has one and that packet does
not trigger jump detection (a jump-triggering packet yields an empty read
instead). -/
theorem watchdog_countdown_read_amended (w : Watchdog) (q : List Packet)
    (hT : 1 ≤ w.timeout) (halive : w.alive = true) :
    (w.has_packets = true →
      w.update = (true, { w with countdown := w.timeout, has_packets := false })) ∧
    (w.has_packets = false → 1 ≤ w.countdown →
      ((w.update).2).countdown = w.countdown - 1) ∧
    (w.has_packets = false → w.countdown = w.timeout →
      (∀ k, k < w.timeout → (updatesN k w).alive = true) ∧
      (updatesN w.timeout w).alive = false ∧
      ((updatesN w.timeout w).read q).1 = none) ∧
    (q = [] → (w.read q).1 = none) ∧
    (∀ p rest, q = p :: rest →
      (w.read q).1 = if triggersJump w p then none else some p) := by
  refine ⟨?_, ?_, ?_, ?_, ?_⟩
  · intro hhp
    simp [Watchdog.update, halive, hhp]
  · intro hhp hcd
    have h0 : (if w.countdown > 0 then w.countdown - 1 else w.countdown)
        = w.countdown - 1 := if_pos (by omega)
    by_cases hz : w.countdown - 1 = 0
    · simp [Watchdog.update, halive, hhp, h0, hz]
    · simp [Watchdog.update, halive, hhp, h0, hz]
  · intro hhp hcdT
    have hinv := updatesN_invariant w halive hhp
    refine ⟨?_, ?_, ?_⟩
    · intro k hk
      exact (hinv k (by omega)).1
    · obtain ⟨n, hn⟩ : ∃ n, w.timeout = n + 1 := ⟨w.timeout - 1, by omega⟩
      obtain ⟨ha, hh, hc⟩ := hinv n (by omega)
      have hc1 : (updatesN n w).countdown = 1 := by omega
      rw [hn, updatesN, update_dies (updatesN n w) ha hh hc1]
    · obtain ⟨n, hn⟩ : ∃ n, w.timeout = n + 1 := ⟨w.timeout - 1, by omega⟩
      obtain ⟨ha, hh, hc⟩ := hinv n (by omega)
      have hc1 : (updatesN n w).countdown = 1 := by omega
      have hdead : (updatesN w.timeout w).alive = false := by
        rw [hn, updatesN, update_dies (updatesN n w) ha hh hc1]
      rw [read_of_dead (updatesN w.timeout w) q hdead]
  · intro hq
    rw [hq]
    unfold Watchdog.read
    simp [halive]
  · intro p rest hq
    subst hq
    have hd := detect_jump_fst w p
    rcases hdj : detect_jump w p with ⟨b, prev'⟩
    rw [hdj] at hd
    cases b with
    | false =>
      rw [read_step w p rest halive, hdj, ← hd]
      simp
    | true =>
      rw [read_step w p rest halive, hdj, ← hd]
      simp

/-- Witness for C1 (amended) at a concrete watchdog with timeout 2: two
packet-less updates kill it, the following read is empty, and an alive read
of a non-jumping packet returns it. -/
theorem watchdog_countdown_read_amended_witness :
    (updatesN 2 (Watchdog.mk 2 5 5 2 false true none)).alive = false ∧
    ((updatesN 2 (Watchdog.mk 2 5 5 2 false true none)).read [Packet.mk 0 0]).1 = none ∧
    ((Watchdog.mk 2 5 5 2 false true none).read [Packet.mk 0 0]).1 =
      (if triggersJump (Watchdog.mk 2 5 5 2 false true none) (Packet.mk 0 0)
       then none else some (Packet.mk 0 0)) := by
  have h := watchdog_countdown_read_amended (Watchdog.mk 2 5 5 2 false true none)
    [Packet.mk 0 0] (by decide) rfl
  exact ⟨(h.2.2.1 rfl rfl).2.1, (h.2.2.1 rfl rfl).2.2, h.2.2.2.2 (Packet.mk 0 0) [] rfl⟩

theorem seq_sub_both_neg (a b : Nat) (h1 : seq_sub a b < 0) (h2 : seq_sub b a < 0) :
    (seq_sub a b).natAbs = 32768 := by
  unfold seq_sub at h1 h2 ⊢
  by_cases hd1 : (a % 65536 + (65536 - b % 65536)) % 65536 < 32768
  · rw [if_pos hd1] at h1
    omega
  · by_cases hd2 : (b % 65536 + (65536 - a % 65536)) % 65536 < 32768
    · rw [if_pos hd2] at h2
      omega
    · rw [if_neg hd1] at h1 ⊢
      rw [if_neg hd2] at h2
      omega

/-- C9: the reference packet recorded for jump detection is monotonically
non-decreasing in wraparound seqnum order: after a successful `read()` the
recorded seqnum is equal to or ahead of the previously recorded one, and an
accepted packet whose seqnum is behind the recorded reference leaves the
reference unchanged. (`max_sn_jump < 2^15` rules out the antipodal seqnum
distance, at which the wraparound order is not antisymmetric; any accepted
packet is then strictly closer than the antipode.) -/
theorem watchdog_prev_monotone (w : Watchdog) (q : List Packet) (p pr : Packet)
    (hmsj : w.max_sn_jump < 32768)
    (hprev : w.prev = some pr)
    (hread : (w.read q).1 = some p) :
    ∃ pr', ((w.read q).2.1).prev = some pr' ∧
      (pr' = pr ∨ seq_is_before pr.seqnum pr'.seqnum = true) ∧
      (seq_is_before p.seqnum pr.seqnum = true → pr' = pr) := by
  by_cases halive : w.alive = true
  case neg =>
    rw [read_of_dead w q (by simpa using halive)] at hread
    exact absurd hread (by simp)
  cases q with
  | nil =>
    unfold Watchdog.read at hread
    simp [halive] at hread
  | cons p1 rest =>
    rw [read_step w p1 rest halive] at hread ⊢
    have hd := detect_jump_of_prev w pr p1 hprev
    by_cases hsn : (seq_sub pr.seqnum p1.seqnum).natAbs > w.max_sn_jump
    · rw [hd, if_pos hsn] at hread ⊢
      exact absurd hread (by simp)
    · by_cases hts : (ts_sub pr.timestamp p1.timestamp).natAbs > w.max_ts_jump
      · rw [hd, if_neg hsn, if_pos hts] at hread ⊢
        exact absurd hread (by simp)
      · by_cases hb : seq_is_before pr.seqnum p1.seqnum
        · rw [hd, if_neg hsn, if_neg hts, if_pos hb] at hread ⊢
          have hp : p1 = p := by simpa using hread
          subst hp
          refine ⟨p1, rfl, Or.inr hb, ?_⟩
          intro hpb
          have h1 : seq_sub p1.seqnum pr.seqnum < 0 := by
            have := of_decide_eq_true hpb
            simpa [seq_is_before] using this
          have h2 : seq_sub pr.seqnum p1.seqnum < 0 := by
            have := of_decide_eq_true hb
            simpa [seq_is_before] using this
          have habs := seq_sub_both_neg pr.seqnum p1.seqnum h2 h1
          omega
        · rw [hd, if_neg hsn, if_neg hts, if_neg hb] at hread ⊢
          exact ⟨pr, rfl, Or.inl rfl, fun _ => rfl⟩

/-- Witness for C9: reading packet seq 12 with recorded reference seq 10
advances the reference; the second component instantiates the
behind-packet clause. -/
theorem watchdog_prev_monotone_witness :
    ∃ pr', (((Watchdog.mk 2 500 500 2 false true (some (Packet.mk 10 0))).read
        [Packet.mk 12 0]).2.1).prev = some pr' ∧
      (pr' = Packet.mk 10 0 ∨
        seq_is_before (Packet.mk 10 0).seqnum pr'.seqnum = true) ∧
      (seq_is_before (Packet.mk 12 0).seqnum (Packet.mk 10 0).seqnum = true →
        pr' = Packet.mk 10 0) :=
  watchdog_prev_monotone (Watchdog.mk 2 500 500 2 false true (some (Packet.mk 10 0)))
    [Packet.mk 12 0] (Packet.mk 12 0) (Packet.mk 10 0) (by decide) rfl (by decide)

theorem getSample_started (st : DepackState) (l : List DPacket) :
    ((getSample st l).2.2.1).started = (st.started || (getSample st l).2.1) := by
  induction l with
  | nil => simp [getSample]
  | cons p q ih =>
    cases hs : p.samples with
    | nil => simpa [getSample, hs] using ih
    | cons s rest =>
      by_cases h1 : st.started = false
      · simp [getSample, hs, h1]
      · have h1' : st.started = true := by simpa using h1
        by_cases h2 : p.ts = st.cursor
        · simp [getSample, hs, h1', h2]
        · by_cases h3 : st.cursor < p.ts
          · simp [getSample, hs, h1', h2, h3]
          · simpa [getSample, hs, h1', h2, h3] using ih

theorem getSample_silent (st : DepackState) (l : List DPacket)
    (h : (getSample st l).2.1 = false) : (getSample st l).1 = 0 := by
  induction l with
  | nil => simp [getSample]
  | cons p q ih =>
    cases hs : p.samples with
    | nil =>
      rw [getSample, hs] at h ⊢
      exact ih h
    | cons s rest =>
      by_cases h1 : st.started = false
      · rw [getSample, hs] at h
        simp [h1] at h
      · have h1' : st.started = true := by simpa using h1
        by_cases h2 : p.ts = st.cursor
        · rw [getSample, hs] at h
          simp [h1', h2] at h
        · by_cases h3 : st.cursor < p.ts
          · simp [getSample, hs, h1', h2, h3]
          · rw [getSample, hs] at h ⊢
            simp only [h1', h2, h3] at h ⊢
            simp at h ⊢
            exact ih h

theorem readFrame_started_mono (n : Nat) :
    ∀ (st : DepackState) (l : List DPacket), st.started = true →
      ((readFrame n st l).2.1).started = true := by
  induction n with
  | zero =>
    intro st l h
    simpa [readFrame] using h
  | succ m ih =>
    intro st l h
    rw [readFrame]
    apply ih
    rw [getSample_started st l, h]
    simp

theorem readFrame_silent (n : Nat) :
    ∀ (st : DepackState) (l : List DPacket),
      ((readFrame n st l).2.1).started = false →
      (readFrame n st l).1 = List.replicate n 0 := by
  induction n with
  | zero =>
    intro st l _
    simp [readFrame]
  | succ m ih =>
    intro st l h
    rw [readFrame] at h ⊢
    simp only at h ⊢
    have hst' : ((getSample st l).2.2.1).started = false := by
      by_contra hc
      have hc' : ((getSample st l).2.2.1).started = true := by simpa using hc
      have := readFrame_started_mono m ((getSample st l).2.2.1)
        ((getSample st l).2.2.2) hc'
      rw [this] at h
      exact absurd h (by simp)
    have hdec : (getSample st l).2.1 = false := by
      have hA := getSample_started st l
      rw [hst'] at hA
      cases hd : (getSample st l).2.1
      · rfl
      · rw [hd] at hA
        simp at hA
    rw [getSample_silent st l hdec, ih _ _ h]
    rfl

/-- C4: `started()` is false from construction until the first sample is
successfully decoded from a packet and true ever after (it flips exactly
when a sample is decoded, and never flips back); until it is true the
depacketizer emits only silence; and `timestamp()` (the next-timestamp
cursor) carries the precondition that `started()` is true. -/
theorem depacketizer_started_spec :
    depackInit.started = false ∧
    (∀ (st : DepackState) (l : List DPacket) (n : Nat), st.started = true →
      ((readFrame n st l).2.1).started = true) ∧
    (∀ (st : DepackState) (l : List DPacket) (n : Nat),
      ((readFrame n st l).2.1).started = false →
      (readFrame n st l).1 = List.replicate n 0) ∧
    (∀ (st : DepackState) (l : List DPacket),
      ((getSample st l).2.2.1).started = (st.started || (getSample st l).2.1)) ∧
    (∀ (st : DepackState) (h : st.started = true), st.timestamp h = st.cursor) :=
  ⟨rfl, fun st l n h => readFrame_started_mono n st l h,
   fun st l n h => readFrame_silent n st l h,
   getSample_started, fun _ _ => rfl⟩

/-- Witness for C4 at concrete states: a started depacketizer stays
started; a never-started one emits a silent frame; `timestamp` under its
precondition returns the cursor. -/
theorem depacketizer_started_witness :
    ((readFrame 3 (DepackState.mk true 5) []).2.1).started = true ∧
    (readFrame 2 depackInit []).1 = List.replicate 2 0 ∧
    DepackState.timestamp (DepackState.mk true 7) rfl = 7 :=
  ⟨depacketizer_started_spec.2.1 (DepackState.mk true 5) [] 3 rfl,
   depacketizer_started_spec.2.2.1 depackInit [] 2 (by decide),
   depacketizer_started_spec.2.2.2.2 (DepackState.mk true 7) rfl⟩

/-- C5: `on_get_sending_source` returns the placeholder source id 123 for
source index 0 and 456 for source index 1, and panics (modelled as `none`)
for every other source index. -/
theorem sending_source_placeholder :
    on_get_sending_source 0 = some 123 ∧
    on_get_sending_source 1 = some 456 ∧
    (∀ i : Nat, on_get_sending_source (i + 2) = none) :=
  ⟨rfl, rfl, fun _ => rfl⟩

/-- C6: `ResamplerMap::new_resampler` panics for every backend other than
the builtin one; for the builtin backend the panic branch is unreachable,
the result is NULL exactly when allocation fails or the constructed
resampler reports itself invalid, and otherwise a valid resampler is
returned. -/
theorem new_resampler_spec :
    (∀ (n : Nat) (a v : Bool),
      new_resampler (ResamplerBackend.other n) a v = ResamplerResult.panic) ∧
    (∀ a v : Bool,
      new_resampler ResamplerBackend.builtin a v ≠ ResamplerResult.panic) ∧
    (∀ a v : Bool,
      new_resampler ResamplerBackend.builtin a v = ResamplerResult.null ↔
        (a = false ∨ v = false)) ∧
    new_resampler ResamplerBackend.builtin true true = ResamplerResult.valid := by
  refine ⟨fun n a v => rfl, ?_, ?_, rfl⟩
  · intro a v
    cases a <;> cases v <;> decide
  · intro a v
    cases a <;> cases v <;> simp [new_resampler]

/-- C7: `Pump` construction fails without aborting (the constructor has no
panic path and only returns early): `valid()` is false afterwards exactly
when the configured frame length converts to zero samples, or the buffer
factory's buffer size is smaller than the computed frame size, or the
frame buffer cannot be allocated; otherwise `valid()` is true. -/
theorem pump_valid_spec (frameSize bufferSize : Nat) (allocOk : Bool) :
    ((Pump.construct frameSize bufferSize allocOk).valid = false ↔
      (frameSize = 0 ∨ bufferSize < frameSize ∨ allocOk = false)) ∧
    ((Pump.construct frameSize bufferSize allocOk).valid = true ↔
      (frameSize ≠ 0 ∧ frameSize ≤ bufferSize ∧ allocOk = true)) := by
  by_cases h1 : frameSize = 0 <;> by_cases h2 : bufferSize < frameSize <;>
    cases allocOk <;> simp [Pump.construct, Pump.valid, h1, h2]
  all_goals omega

theorem runAllocOps_count (ops : List AllocOp) :
    ∀ h h' : HeapAllocator, runAllocOps h ops = some h' →
      h'.num_allocations =
        h.num_allocations + (countAllocs ops : Int) - (countDeallocs ops : Int) := by
  induction ops with
  | nil =>
    intro h h' he
    rw [runAllocOps] at he
    cases he
    simp [countAllocs, countDeallocs]
  | cons op rest ih =>
    intro h h' he
    cases op with
    | alloc =>
      rw [runAllocOps] at he
      have hrec := ih _ _ he
      simp only [HeapAllocator.allocate] at hrec
      simp only [countAllocs, countDeallocs]
      push_cast
      omega
    | dealloc =>
      rw [runAllocOps] at he
      cases hd : h.deallocate with
      | none =>
        rw [hd] at he
        exact absurd he (by simp)
      | some h2 =>
        rw [hd] at he
        have hrec := ih _ _ he
        have h2eq : h2 = HeapAllocator.mk (h.num_allocations - 1) := by
          by_cases hle : h.num_allocations ≤ 0
          · rw [HeapAllocator.deallocate, if_pos hle] at hd
            exact absurd hd (by simp)
          · rw [HeapAllocator.deallocate, if_neg hle] at hd
            exact (Option.some.inj hd).symm
        subst h2eq
        rw [show (HeapAllocator.mk (h.num_allocations - 1)).num_allocations
            = h.num_allocations - 1 from rfl] at hrec
        simp only [countAllocs, countDeallocs]
        push_cast
        omega

/-- C8: `HeapAllocator` maintains a counter of outstanding allocations:
after any non-panicking call sequence from a fresh allocator,
`num_allocations()` equals the number of `allocate()` calls minus the
number of `deallocate()` calls; `deallocate()` panics (modelled as `none`)
when the counter is not positive, and otherwise decrements it. -/
theorem heap_allocator_counter (ops : List AllocOp) (h' : HeapAllocator)
    (hrun : runAllocOps (HeapAllocator.mk 0) ops = some h') :
    h'.num_allocations = (countAllocs ops : Int) - (countDeallocs ops : Int) ∧
    (∀ h : HeapAllocator, h.num_allocations ≤ 0 → h.deallocate = none) ∧
    (∀ h : HeapAllocator, 0 < h.num_allocations →
      h.deallocate = some (HeapAllocator.mk (h.num_allocations - 1))) := by
  refine ⟨?_, ?_, ?_⟩
  · have := runAllocOps_count ops (HeapAllocator.mk 0) h' hrun
    simpa using this
  · intro h hle
    simp [HeapAllocator.deallocate, hle]
  · intro h hpos
    rw [HeapAllocator.deallocate, if_neg (by omega)]

/-- Witness for C8: two allocations followed by one deallocation leave the
counter at 1; deallocating at counter 0 panics; deallocating at counter 3
decrements. -/
theorem heap_allocator_counter_witness :
    (HeapAllocator.mk 1).num_allocations =
      ((countAllocs [AllocOp.alloc, AllocOp.alloc, AllocOp.dealloc] : Int)
        - (countDeallocs [AllocOp.alloc, AllocOp.alloc, AllocOp.dealloc] : Int)) ∧
    (HeapAllocator.mk 0).deallocate = none ∧
    (HeapAllocator.mk 3).deallocate = some (HeapAllocator.mk (3 - 1)) := by
  have h := heap_allocator_counter [AllocOp.alloc, AllocOp.alloc, AllocOp.dealloc]
    (HeapAllocator.mk 1) (by decide)
  exact ⟨h.1, h.2.1 (HeapAllocator.mk 0) (by decide),
    h.2.2 (HeapAllocator.mk 3) (by decide)⟩

/-- C10: a non-panicking `create_transport_pipeline` call (source endpoint
supplied, no previous pipeline) increments the sending-source count once
for the source endpoint and once more when a repair endpoint is supplied,
before any validation step; `on_get_num_sources()` afterwards returns the
old count plus 1 or plus 2 accordingly, for every validation outcome,
including calls that return false. -/
theorem ctp_num_sources (s : SenderSession) (hasRepair : Bool) (env : TransportEnv)
    (hw : s.audio_writer = false) :
    ∃ (b : Bool) (s' : SenderSession),
      create_transport_pipeline s true hasRepair env = CtpResult.ret b s' ∧
      on_get_num_sources s' = s.num_sources + 1 + (if hasRepair then 1 else 0) := by
  have hb : on_get_num_sources (bumpSources s true hasRepair) =
      s.num_sources + 1 + (if hasRepair then 1 else 0) := by
    cases hasRepair <;> simp [bumpSources, on_get_num_sources]
  have hform : create_transport_pipeline s true hasRepair env
      = CtpResult.ret false (bumpSources s true hasRepair) ∨
    create_transport_pipeline s true hasRepair env
      = CtpResult.ret true { bumpSources s true hasRepair with audio_writer := true } := by
    unfold create_transport_pipeline
    rw [if_neg (show ¬ (s.audio_writer = true) by simp [hw])]
    rw [if_neg (show ¬ ((true : Bool) = false) by simp)]
    by_cases h1 : env.formatOk = false
    · rw [if_pos h1]
      exact Or.inl rfl
    rw [if_neg h1]
    by_cases h2 : env.routerOk = false
    · rw [if_pos h2]
      exact Or.inl rfl
    rw [if_neg h2]
    by_cases h3 : env.sourceRouteOk = false
    · rw [if_pos h3]
      exact Or.inl rfl
    rw [if_neg h3]
    by_cases h4 : (hasRepair && !env.repairRouteOk) = true
    · rw [if_pos h4]
      exact Or.inl rfl
    rw [if_neg h4]
    by_cases h5 : (hasRepair && env.interleavingEnabled && !env.interleaverOk) = true
    · rw [if_pos h5]
      exact Or.inl rfl
    rw [if_neg h5]
    by_cases h6 : (hasRepair && !env.fecEncoderOk) = true
    · rw [if_pos h6]
      exact Or.inl rfl
    rw [if_neg h6]
    by_cases h7 : (hasRepair && !env.fecWriterOk) = true
    · rw [if_pos h7]
      exact Or.inl rfl
    rw [if_neg h7]
    by_cases h8 : env.payloadEncoderOk = false
    · rw [if_pos h8]
      exact Or.inl rfl
    rw [if_neg h8]
    by_cases h9 : env.packetizerOk = false
    · rw [if_pos h9]
      exact Or.inl rfl
    rw [if_neg h9]
    by_cases h10 : (env.channelMasksDiffer && !env.channelMapperOk) = true
    · rw [if_pos h10]
      exact Or.inl rfl
    rw [if_neg h10]
    by_cases h11 : (env.resamplingNeeded && env.poisoningEnabled && !env.poisonerOk) = true
    · rw [if_pos h11]
      exact Or.inl rfl
    rw [if_neg h11]
    by_cases h12 : (env.resamplingNeeded && !env.resamplerOk) = true
    · rw [if_pos h12]
      exact Or.inl rfl
    rw [if_neg h12]
    by_cases h13 : (env.resamplingNeeded && !env.resamplerWriterOk) = true
    · rw [if_pos h13]
      exact Or.inl rfl
    rw [if_neg h13]
    exact Or.inr rfl
  rcases hform with h | h
  · exact ⟨false, bumpSources s true hasRepair, h, hb⟩
  · exact ⟨true, { bumpSources s true hasRepair with audio_writer := true }, h, hb⟩

/-- Witness for C10: with a repair endpoint and a failing format lookup the
call returns false yet the source count went from 0 to 2. -/
theorem ctp_num_sources_witness :
    ∃ (b : Bool) (s' : SenderSession),
      create_transport_pipeline (SenderSession.mk 0 false) true true
        (TransportEnv.mk false true true true true true true true true true true
          true true true true true true)
        = CtpResult.ret b s' ∧
      on_get_num_sources s' = (SenderSession.mk 0 false).num_sources + 1 +
        (if (true : Bool) then 1 else 0) :=
  ctp_num_sources (SenderSession.mk 0 false) true
    (TransportEnv.mk false true true true true true true true true true true
      true true true true true true) rfl

